import Mathlib

/-!
Verification of the document-operations MCP server (src/sample_files/server.py).

The file embeds the tool-dispatch and operation-application core of the server:
word-document, spreadsheet and PDF handlers, the per-descriptor operation
interpreters, and the uniform result envelope. External format libraries
(python-docx, openpyxl, pandas, reportlab) are reached only through the narrow
load/mutate/save surface the server actually uses; that surface is modelled
explicitly below, following the adapter contract of the design document where
the library behavior is not visible in the source.
-/

namespace DocMCP

/-- A value stored in one spreadsheet cell. `int` covers integer values such as
the column labels pandas writes in the header row; `raw` carries a non-integer
JSON numeral verbatim; `empty` is a missing (NaN/None) cell. -/
inductive CellVal where
  | str (s : String)
  | int (n : Int)
  | bool (b : Bool)
  | raw (s : String)
  | empty
deriving DecidableEq, Repr

/-- Paragraph style, as python-docx assigns it: `add_paragraph` gives normal
style, `add_heading` gives Title for level 0 and Heading n for 1-9. -/
inductive ParaStyle where
  | normal
  | title
  | heading (level : Int)
deriving DecidableEq, Repr

/-- One paragraph of a word document: its text and its style. -/
structure Para where
  text : String
  style : ParaStyle
deriving DecidableEq, Repr

/-- A word document is its ordered, index-addressable paragraph sequence. -/
abbrev WordDoc := List Para

/-- One spreadsheet sheet: a name and a sparse 1-based cell grid, kept as an
association list from (row, column) to value. -/
structure Sheet where
  name : String
  cells : List ((Int × Int) × CellVal)
deriving DecidableEq, Repr

/-- A workbook is its ordered list of sheets (openpyxl: insertion order). -/
abbrev Workbook := List Sheet

/-- A finalized PDF: pages, each page a list of drawString records
(x, y, text). -/
structure PdfDoc where
  pages : List (List (Int × Int × String))
deriving DecidableEq, Repr

/-- A file on disk, as one of the formats the server reads or writes. Opening
a file with the wrong library raises in Python; the loaders below return an
error in exactly that case. -/
inductive DocFile where
  | word (doc : WordDoc)
  | excel (wb : Workbook)
  | text (s : String)
  | pdf (d : PdfDoc)
deriving DecidableEq, Repr

/-- The file system: an association list from path to file. -/
abbrev FS := List (String × DocFile)

/-- Look a path up in the file system (os.path.exists + open). -/
def fsLookup : FS → String → Option DocFile
  | [], _ => none
  | e :: rest, p => if e.1 = p then some e.2 else fsLookup rest p

/-- Save a file at a path, overwriting an existing file (doc.save / wb.save /
canvas save). -/
def fsSave : FS → String → DocFile → FS
  | [], p, f => [(p, f)]
  | e :: rest, p, f => if e.1 = p then (p, f) :: rest else e :: fsSave rest p f

/-- The uniform result envelope. Most tools return success, message and a
filepath field (null on failure); extract_docx_text instead returns success,
message and a content field and has no filepath field at all. -/
inductive Envelope where
  | fileResult (success : Bool) (message : String) (filepath : Option String)
  | contentResult (success : Bool) (message : String) (content : String)
deriving DecidableEq, Repr

/-- The success flag of an envelope. -/
def Envelope.success : Envelope → Bool
  | .fileResult s _ _ => s
  | .contentResult s _ _ => s

/-- Whether the envelope carries a filepath field at all. -/
def Envelope.hasFilepathField : Envelope → Bool
  | .fileResult _ _ _ => true
  | .contentResult _ _ _ => false

/-- Python str.isspace characters stripped by str.strip(). -/
def pyWhitespace (c : Char) : Bool :=
  c == ' ' || c == '\t' || c == '\n' || c == '\r' || c == '\x0b' || c == '\x0c'

/-- Python str.strip(): drop whitespace from both ends. -/
def pyStrip (s : String) : String :=
  String.mk (((s.toList.dropWhile pyWhitespace).reverse.dropWhile pyWhitespace).reverse)

/-- Split a character list on a separator character; the result always has
one more part than there are separators, so the empty input gives one empty
part, as Python str.split does with an explicit separator. -/
def splitOnChar (sep : Char) : List Char → List (List Char)
  | [] => [[]]
  | c :: rest =>
    let r := splitOnChar sep rest
    if c = sep then [] :: r
    else (c :: r.headD []) :: r.tail

/-- Python str.split(sep) for a one-character separator. -/
def pySplit (s : String) (sep : Char) : List String :=
  (splitOnChar sep s.toList).map String.mk

/-! ## Word-document operations -/

/-- One word-document operation descriptor. Fields mirror the JSON payload;
a missing field is `none` and the interpreter applies the same default that
the corresponding op.get call applies in the source. -/
structure WordOp where
  type : Option String := none
  text : Option String := none
  level : Option Int := none
  index : Option Int := none
deriving DecidableEq, Repr

/-- python-docx Document.add_heading: level 0 maps to Title style, 1-9 to
Heading level; any other level raises ValueError. -/
def addHeading (d : WordDoc) (text : String) (level : Int) : Except String WordDoc :=
  if 0 ≤ level ∧ level ≤ 9 then
    .ok (d ++ [⟨text, if level = 0 then .title else .heading level⟩])
  else
    .error "level must be in range 0-9"

/-- Replace the text of paragraph i, keeping its style (paragraph.text
assignment). -/
def setParaText (d : WordDoc) (i : Nat) (t : String) : WordDoc :=
  d.mapIdx (fun j p => if j = i then { p with text := t } else p)

/-- Interpret one word-document operation descriptor against the open
document, exactly as the if/elif chain of edit_word_document does: an
out-of-range index or an unknown type is skipped (warning only); add_heading
can raise, which aborts the batch. -/
def interpWordOp (d : WordDoc) (op : WordOp) : Except String WordDoc :=
  if op.type = some "add_paragraph" then
    .ok (d ++ [⟨op.text.getD "", .normal⟩])
  else if op.type = some "add_heading" then
    addHeading d (op.text.getD "") (op.level.getD 1)
  else if op.type = some "edit_paragraph" then
    let idx := op.index.getD 0
    if 0 ≤ idx ∧ idx < (d.length : Int) then
      .ok (setParaText d idx.toNat (op.text.getD ""))
    else
      .ok d
  else if op.type = some "delete_paragraph" then
    let idx := op.index.getD 0
    if 0 ≤ idx ∧ idx < (d.length : Int) then
      .ok (d.eraseIdx idx.toNat)
    else
      .ok d
  else
    .ok d

/-- Apply a whole descriptor batch in order; the first raised error aborts the
loop, as an exception aborts the Python for-loop. -/
def applyWordOps (d : WordDoc) (ops : List WordOp) : Except String WordDoc :=
  List.foldlM interpWordOp d ops

/-- Load a file as a word document; any non-docx file makes Document(path)
raise. -/
def loadWordDoc : DocFile → Except String WordDoc
  | .word d => .ok d
  | _ => .error "file is not a Word document"

/-- create_word_document: a fresh Document has no paragraphs; the whole
content string is added as one paragraph; save; success envelope. -/
def create_word_document (fs : FS) (filepath content : String) : Envelope × FS :=
  (.fileResult true "Successfully created Word document" (some filepath),
   fsSave fs filepath (.word [⟨content, .normal⟩]))

/-- edit_word_document: missing file is an early failure return; then load,
apply the batch, save, success envelope; any raised error is caught by the
boundary and becomes a failure envelope without saving. -/
def edit_word_document (fs : FS) (filepath : String) (operations : List WordOp) :
    Envelope × FS :=
  match fsLookup fs filepath with
  | none => (.fileResult false ("File not found: " ++ filepath) none, fs)
  | some f =>
    match loadWordDoc f with
    | .error e =>
        (.fileResult false ("Error editing Word document: " ++ e) none, fs)
    | .ok d =>
      match applyWordOps d operations with
      | .error e =>
          (.fileResult false ("Error editing Word document: " ++ e) none, fs)
      | .ok d2 =>
          (.fileResult true "Successfully edited Word document" (some filepath),
           fsSave fs filepath (.word d2))

/-- Load a file as text (open + read); a non-text file fails to decode. -/
def loadText : DocFile → Except String String
  | .text s => .ok s
  | _ => .error "invalid start byte"

/-- The paragraphs convert_txt_to_word builds: one per line whose stripped
form is nonempty, in line order, keeping the unstripped line text. -/
def txtToParas (content : String) : WordDoc :=
  ((pySplit content '\n').filter (fun l => pyStrip l ≠ "")).map (fun l => ⟨l, .normal⟩)

/-- convert_txt_to_word: missing source is an early failure; read the text,
build one paragraph per non-blank line, save to the target path. -/
def convert_txt_to_word (fs : FS) (source_path target_path : String) : Envelope × FS :=
  match fsLookup fs source_path with
  | none => (.fileResult false ("Source file not found: " ++ source_path) none, fs)
  | some f =>
    match loadText f with
    | .error e =>
        (.fileResult false ("Error converting text to Word: " ++ e) none, fs)
    | .ok content =>
        (.fileResult true "Successfully converted text to Word document" (some target_path),
         fsSave fs target_path (.word (txtToParas content)))

/-- extract_docx_text: join the non-blank paragraph texts with newlines; note
the failure envelope carries a content field, not a filepath field. -/
def extract_docx_text (fs : FS) (filepath : String) : Envelope × FS :=
  match fsLookup fs filepath with
  | none => (.contentResult false ("File not found: " ++ filepath) "", fs)
  | some f =>
    match loadWordDoc f with
    | .error e => (.contentResult false ("Error reading Word file: " ++ e) "", fs)
    | .ok d =>
        (.contentResult true "Successfully extracted text from .docx file"
          (String.intercalate "\n" ((d.map Para.text).filter (fun t => pyStrip t ≠ ""))),
         fs)

/-! ## Spreadsheet operations -/

/-- One spreadsheet operation descriptor, mirroring the JSON payload keys
used by edit_excel_file; a missing field is `none`. -/
structure ExcelOp where
  type : Option String := none
  sheet : Option String := none
  row : Option Int := none
  col : Option Int := none
  value : Option CellVal := none
  start_row : Option Int := none
  start_col : Option Int := none
  values : Option (List (List CellVal)) := none
  name : Option String := none
deriving DecidableEq, Repr

/-- The sheet names of a workbook, in order (wb.sheetnames). -/
def sheetNames (wb : Workbook) : List String := wb.map Sheet.name

/-- openpyxl create_sheet: append a new empty sheet at the end. -/
def createSheet (wb : Workbook) (n : String) : Workbook := wb ++ [⟨n, []⟩]

/-- The first sheet with the given name (wb[name]). -/
def getSheet (wb : Workbook) (n : String) : Option Sheet :=
  wb.find? (fun s => s.name == n)

/-- Apply a mutation to the sheet with the given name (in openpyxl the sheet
object wb[name] is mutated in place). -/
def modifySheet : Workbook → String → (Sheet → Sheet) → Workbook
  | [], _, _ => []
  | s :: rest, n, f => if s.name = n then f s :: rest else s :: modifySheet rest n f

/-- del wb[name]: remove the sheet with the given name from the workbook. -/
def deleteSheetByName : Workbook → String → Workbook
  | [], _ => []
  | s :: rest, n => if s.name = n then rest else s :: deleteSheetByName rest n

/-- sheet.cell(row, column, value): write the cell, replacing an existing
value or materializing a fresh cell (the grid grows on demand). -/
def Sheet.setCell (s : Sheet) (r c : Int) (v : CellVal) : Sheet :=
  if s.cells.any (fun e => e.1 == (r, c)) then
    { s with cells := s.cells.map (fun e => if e.1 = (r, c) then ((r, c), v) else e) }
  else
    { s with cells := s.cells ++ [((r, c), v)] }

/-- Read one cell back (sheet.cell(row, column).value; absent cell is None). -/
def Sheet.getCell (s : Sheet) (r c : Int) : Option CellVal :=
  (s.cells.find? (fun e => e.1 == (r, c))).map Prod.snd

/-- sheet.delete_rows(r): drop the cells of row r and shift every higher row
up by one. Modelled from the spec adapter contract for the 1-based grid; the
server never bounds-checks r. -/
def Sheet.deleteRow (s : Sheet) (r : Int) : Sheet :=
  { s with
    cells := s.cells.filterMap (fun e =>
      if e.1.1 = r then none
      else if r < e.1.1 then some ((e.1.1 - 1, e.1.2), e.2)
      else some e) }

/-- sheet.delete_cols(c): drop the cells of column c and shift every higher
column left by one. -/
def Sheet.deleteCol (s : Sheet) (c : Int) : Sheet :=
  { s with
    cells := s.cells.filterMap (fun e =>
      if e.1.2 = c then none
      else if c < e.1.2 then some ((e.1.1, e.1.2 - 1), e.2)
      else some e) }

/-- The largest occupied row index of a sheet (0 for an empty sheet); rows
strictly beyond it are the out-of-range ones for deletion. -/
def cellsMaxRow : List ((Int × Int) × CellVal) → Int
  | [] => 0
  | e :: rest => max e.1.1 (cellsMaxRow rest)

/-- The largest occupied column index of a sheet (0 for an empty sheet). -/
def cellsMaxCol : List ((Int × Int) × CellVal) → Int
  | [] => 0
  | e :: rest => max e.1.2 (cellsMaxCol rest)

/-- The inner enumerate loop of update_range: write one row of values left to
right starting at column c. -/
def setRowCells : Sheet → Int → Int → List CellVal → Sheet
  | s, _, _, [] => s
  | s, r, c, v :: vs => setRowCells (s.setCell r c v) r (c + 1) vs

/-- The outer enumerate loop of update_range: write the rows top to bottom
starting at row r. -/
def setRangeRows : Sheet → Int → Int → List (List CellVal) → Sheet
  | s, _, _, [] => s
  | s, r, c, rv :: rest => setRangeRows (setRowCells s r c rv) (r + 1) c rest

/-- The if/elif chain of edit_excel_file, after the sheet field has been
resolved to sheetName and a missing sheet has been created (wb1): dispatch on
the descriptor type. No branch can raise, and an unknown type only logs a
warning, leaving the workbook as the resolution step left it. -/
def dispatchExcelOp (wb1 : Workbook) (sheetName : String) (op : ExcelOp) : Workbook :=
  if op.type = some "update_cell" then
    modifySheet wb1 sheetName (fun s =>
      s.setCell (op.row.getD 1) (op.col.getD 1) (op.value.getD (.str "")))
  else if op.type = some "update_range" then
    modifySheet wb1 sheetName (fun s =>
      setRangeRows s (op.start_row.getD 1) (op.start_col.getD 1) (op.values.getD []))
  else if op.type = some "delete_row" then
    modifySheet wb1 sheetName (fun s => s.deleteRow (op.row.getD 1))
  else if op.type = some "delete_column" then
    modifySheet wb1 sheetName (fun s => s.deleteCol (op.col.getD 1))
  else if op.type = some "add_sheet" then
    if op.name.getD "NewSheet" ∈ sheetNames wb1 then wb1
    else createSheet wb1 (op.name.getD "NewSheet")
  else if op.type = some "delete_sheet" then
    if sheetName ∈ sheetNames wb1 ∧ 1 < (sheetNames wb1).length then
      deleteSheetByName wb1 sheetName
    else wb1
  else
    wb1

/-- Interpret one spreadsheet operation descriptor, exactly following
edit_excel_file: the sheet field is resolved first (defaulting to the first
sheet name, which Python evaluates eagerly and which raises IndexError on a
sheetless workbook), a missing sheet is created before the type is even
inspected, and then the type is dispatched. -/
def interpExcelOp (wb : Workbook) (op : ExcelOp) : Except String Workbook :=
  match (sheetNames wb).head? with
  | none => .error "list index out of range"
  | some firstName =>
    let sheetName := op.sheet.getD firstName
    .ok (dispatchExcelOp
      (if sheetName ∈ sheetNames wb then wb else createSheet wb sheetName)
      sheetName op)

/-- Apply a whole spreadsheet descriptor batch in order. -/
def applyExcelOps (wb : Workbook) (ops : List ExcelOp) : Except String Workbook :=
  List.foldlM interpExcelOp wb ops

/-- Load a file as a workbook; openpyxl raises on any non-xlsx file. -/
def loadWorkbook : DocFile → Except String Workbook
  | .excel wb => .ok wb
  | _ => .error "File is not a zip file"

/-- edit_excel_file: missing file is an early failure return; then load,
apply the batch, save, success envelope; a raised error is caught by the
boundary and becomes a failure envelope without saving. -/
def edit_excel_file (fs : FS) (filepath : String) (operations : List ExcelOp) :
    Envelope × FS :=
  match fsLookup fs filepath with
  | none => (.fileResult false ("File not found: " ++ filepath) none, fs)
  | some f =>
    match loadWorkbook f with
    | .error e =>
        (.fileResult false ("Error editing Excel file: " ++ e) none, fs)
    | .ok wb =>
      match applyExcelOps wb operations with
      | .error e =>
          (.fileResult false ("Error editing Excel file: " ++ e) none, fs)
      | .ok wb2 =>
          (.fileResult true "Successfully edited Excel file" (some filepath),
           fsSave fs filepath (.excel wb2))

/-! ## JSON parsing and the pandas DataFrame path of create_excel_file

create_excel_file first hands its content string to json.loads and only on a
JSONDecodeError falls back to splitting lines on commas. The parser below
follows the json module: JSON values with the non-standard NaN and Infinity
extensions, strict strings (raw control characters rejected), and numerals
with no leading zeros. Numerals are kept verbatim so that integer and
non-integer literals stay distinguishable. -/

/-- A parsed JSON value. -/
inductive Json where
  | str (s : String)
  | num (raw : String)
  | bool (b : Bool)
  | null
  | arr (items : List Json)
  | obj (fields : List (String × Json))

/-- Drop JSON whitespace. -/
def jsonWs (cs : List Char) : List Char :=
  cs.dropWhile (fun c => c == ' ' || c == '\t' || c == '\n' || c == '\r')

/-- Hex digit value, for string escapes. -/
def hexVal (c : Char) : Option Nat :=
  if '0' ≤ c ∧ c ≤ '9' then some (c.toNat - '0'.toNat)
  else if 'a' ≤ c ∧ c ≤ 'f' then some (c.toNat - 'a'.toNat + 10)
  else if 'A' ≤ c ∧ c ≤ 'F' then some (c.toNat - 'A'.toNat + 10)
  else none

/-- Parse the body of a JSON string after the opening quote, returning the
decoded text and the remaining input. -/
def parseStringBody : Nat → List Char → Option (String × List Char)
  | 0, _ => none
  | _, [] => none
  | fuel + 1, c :: cs =>
    if c = '"' then some ("", cs)
    else if c.toNat < 0x20 then none
    else if c = '\\' then
      match cs with
      | [] => none
      | e :: cs2 =>
        let keep (ch : Char) (rest : List Char) : Option (String × List Char) :=
          (parseStringBody fuel rest).map (fun r => (String.mk (ch :: r.1.toList), r.2))
        if e = '"' then keep '"' cs2
        else if e = '\\' then keep '\\' cs2
        else if e = '/' then keep '/' cs2
        else if e = 'b' then keep '\x08' cs2
        else if e = 'f' then keep '\x0c' cs2
        else if e = 'n' then keep '\n' cs2
        else if e = 'r' then keep '\r' cs2
        else if e = 't' then keep '\t' cs2
        else if e = 'u' then
          match cs2 with
          | h1 :: h2 :: h3 :: h4 :: cs3 =>
            match hexVal h1, hexVal h2, hexVal h3, hexVal h4 with
            | some a, some b, some c3, some d =>
                keep (Char.ofNat (((a * 16 + b) * 16 + c3) * 16 + d)) cs3
            | _, _, _, _ => none
          | _ => none
        else none
    else
      (parseStringBody fuel cs).map (fun r => (String.mk (c :: r.1.toList), r.2))

/-- Consume a literal token, or fail. -/
def dropLit : List Char → List Char → Option (List Char)
  | [], cs => some cs
  | l :: ls, c :: cs => if c = l then dropLit ls cs else none
  | _ :: _, [] => none

/-- Parse the digit run of a numeral. -/
def takeDigits (cs : List Char) : List Char × List Char :=
  (cs.takeWhile Char.isDigit, cs.dropWhile Char.isDigit)

/-- Parse the optional fraction part of a numeral: a dot must be followed by
at least one digit. -/
def parseFrac : List Char → Option (List Char × List Char)
  | '.' :: rest =>
    let (fs, r) := takeDigits rest
    if fs = [] then none else some ('.' :: fs, r)
  | cs => some ([], cs)

/-- Parse the optional exponent part of a numeral: e or E, an optional sign
and at least one digit. -/
def parseExp : List Char → Option (List Char × List Char)
  | [] => some ([], [])
  | e :: rest =>
    if e = 'e' ∨ e = 'E' then
      let (sgn, r1) :=
        match rest with
        | s :: r2 => if s = '+' ∨ s = '-' then ([s], r2) else ([], rest)
        | [] => ([], rest)
      let (xs, r3) := takeDigits r1
      if xs = [] then none else some (e :: (sgn ++ xs), r3)
    else some ([], e :: rest)

/-- Parse a JSON numeral (optional minus, integer part with no leading zero,
optional fraction and exponent), returning the consumed text verbatim. -/
def parseNumber (cs : List Char) : Option (String × List Char) :=
  let (sgn, cs1) :=
    match cs with
    | '-' :: rest => (['-'], rest)
    | _ => ([], cs)
  match cs1 with
  | [] => none
  | d :: _ =>
    if ¬ d.isDigit then none
    else
      let (ds, cs2) := takeDigits cs1
      if 1 < ds.length ∧ d = '0' then none
      else
        match parseFrac cs2 with
        | none => none
        | some (frac, cs3) =>
          match parseExp cs3 with
          | none => none
          | some (ex, cs4) => some (String.mk (sgn ++ ds ++ frac ++ ex), cs4)

mutual

/-- Parse one JSON value from the front of the input. -/
def parseValue : Nat → List Char → Option (Json × List Char)
  | 0, _ => none
  | fuel + 1, cs =>
    match jsonWs cs with
    | [] => none
    | c :: rest =>
      if c = '"' then
        (parseStringBody (rest.length + 1) rest).map (fun r => (.str r.1, r.2))
      else if c = '[' then
        match jsonWs rest with
        | ']' :: r2 => some (.arr [], r2)
        | _ => (parseArrItems fuel rest).map (fun r => (.arr r.1, r.2))
      else if c = '{' then
        match jsonWs rest with
        | '}' :: r2 => some (.obj [], r2)
        | _ => (parseObjItems fuel rest).map (fun r => (.obj r.1, r.2))
      else if c = 't' then
        (dropLit ['r', 'u', 'e'] rest).map (fun r => (.bool true, r))
      else if c = 'f' then
        (dropLit ['a', 'l', 's', 'e'] rest).map (fun r => (.bool false, r))
      else if c = 'n' then
        (dropLit ['u', 'l', 'l'] rest).map (fun r => (.null, r))
      else if c = 'N' then
        (dropLit ['a', 'N'] rest).map (fun r => (.num "NaN", r))
      else if c = 'I' then
        (dropLit ['n', 'f', 'i', 'n', 'i', 't', 'y'] rest).map
          (fun r => (.num "Infinity", r))
      else if c = '-' then
        match rest with
        | 'I' :: _ =>
          (dropLit ['I', 'n', 'f', 'i', 'n', 'i', 't', 'y'] rest).map
            (fun r => (.num "-Infinity", r))
        | _ => parseNumber (c :: rest) |>.map (fun r => (.num r.1, r.2))
      else
        parseNumber (c :: rest) |>.map (fun r => (.num r.1, r.2))

/-- Parse the comma-separated items of a nonempty JSON array, consuming the
closing bracket. -/
def parseArrItems : Nat → List Char → Option (List Json × List Char)
  | 0, _ => none
  | fuel + 1, cs =>
    match parseValue fuel cs with
    | none => none
    | some (v, rest) =>
      match jsonWs rest with
      | ',' :: r2 =>
        (parseArrItems fuel r2).map (fun r => (v :: r.1, r.2))
      | ']' :: r2 => some ([v], r2)
      | _ => none

/-- Parse the comma-separated key-value pairs of a nonempty JSON object,
consuming the closing brace. -/
def parseObjItems : Nat → List Char → Option (List (String × Json) × List Char)
  | 0, _ => none
  | fuel + 1, cs =>
    match jsonWs cs with
    | '"' :: r1 =>
      match parseStringBody (r1.length + 1) r1 with
      | none => none
      | some (k, r2) =>
        match jsonWs r2 with
        | ':' :: r3 =>
          match parseValue fuel r3 with
          | none => none
          | some (v, r4) =>
            match jsonWs r4 with
            | ',' :: r5 => (parseObjItems fuel r5).map (fun r => ((k, v) :: r.1, r.2))
            | '}' :: r5 => some ([(k, v)], r5)
            | _ => none
        | _ => none
    | _ => none

end

/-- json.loads: parse the whole string as one JSON value, requiring only
whitespace to remain. -/
def jsonLoads (content : String) : Option Json :=
  let cs := content.toList
  match parseValue (cs.length + 1) cs with
  | some (v, rest) => if jsonWs rest = [] then some v else none
  | none => none

/-- True when a numeral text is a plain integer literal (no fraction,
exponent, or NaN/Infinity), in which case the JSON value is a Python int. -/
def isIntLit (s : String) : Bool :=
  match s.toList with
  | [] => false
  | '-' :: ds => ¬ ds.isEmpty && ds.all Char.isDigit
  | ds => ds.all Char.isDigit

/-- Map one scalar JSON value to the cell it produces in the saved sheet;
null becomes a missing cell; a list or object cell is not a scalar. -/
def jsonScalarToCell : Json → Option CellVal
  | .str s => some (.str s)
  | .num r => some (if isIntLit r then .int ((r.toInt?).getD 0) else .raw r)
  | .bool b => some (.bool b)
  | .null => some .empty
  | .arr _ => none
  | .obj _ => none

/-- A pandas DataFrame as far as to_excel is concerned: the column labels and
the rows of cells. -/
structure DataFrame where
  columns : List CellVal
  rows : List (List CellVal)
deriving DecidableEq, Repr

/-- Map a list of scalars, failing if any element is not scalar. -/
def cellsOfScalars : List Json → Option (List CellVal)
  | [] => some []
  | j :: js =>
    match jsonScalarToCell j, cellsOfScalars js with
    | some c, some cs => some (c :: cs)
    | _, _ => none

/-- Rows from a JSON array of arrays, failing on a non-array or non-scalar
entry. -/
def rowsOfJson : List Json → Option (List (List CellVal))
  | [] => some []
  | .arr cells :: js =>
    match cellsOfScalars cells, rowsOfJson js with
    | some r, some rs => some (r :: rs)
    | _, _ => none
  | _ => none

/-- pd.DataFrame on a list of rows: the column labels are the integers 0 to
n-1 where n is the longest row, and short rows are padded with NaN. -/
def mkDataFrameFromRows (rows : List (List CellVal)) : DataFrame :=
  let n := rows.foldl (fun m r => max m r.length) 0
  ⟨(List.range n).map (fun i => .int i),
   rows.map (fun r => r ++ List.replicate (n - r.length) .empty)⟩

/-- Column lists of equal length from the values of a JSON object, failing on
a non-array value, a non-scalar entry, or unequal lengths. -/
def colsOfJsonObj : List (String × Json) → Option (List (List CellVal))
  | [] => some []
  | (_, .arr cells) :: fields =>
    match cellsOfScalars cells, colsOfJsonObj fields with
    | some c, some cs => some (c :: cs)
    | _, _ => none
  | _ => none

/-- Transpose equal-length columns into rows. -/
def transposeCols (n : Nat) (cols : List (List CellVal)) : List (List CellVal) :=
  (List.range n).map (fun i => cols.map (fun c => c.getD i .empty))

/-- pd.DataFrame on a parsed JSON value, as create_excel_file uses it: a list
of lists gives the rows, a list of scalars gives one column, a dict of
equal-length lists gives labeled columns; a bare scalar raises. -/
def dataFrameOfJson : Json → Except String DataFrame
  | .arr [] => .ok ⟨[], []⟩
  | .arr (j :: js) =>
    match rowsOfJson (j :: js) with
    | some rows => .ok (mkDataFrameFromRows rows)
    | none =>
      match cellsOfScalars (j :: js) with
      | some col => .ok ⟨[.int 0], col.map (fun c => [c])⟩
      | none => .error "DataFrame constructor not properly called"
  | .obj fields =>
    match colsOfJsonObj fields with
    | some cols =>
      match cols.map List.length with
      | [] => .ok ⟨[], []⟩
      | n :: ns =>
        if ns.all (fun m => m == n) then
          .ok ⟨fields.map (fun kv => .str kv.1), transposeCols n cols⟩
        else .error "All arrays must be of the same length"
    | none => .error "DataFrame constructor not properly called"
  | _ => .error "DataFrame constructor not properly called"

/-- The CSV fallback of create_excel_file: strip the content, split it into
lines, split each line on commas; every cell is a string. -/
def csvFallbackRows (content : String) : List (List CellVal) :=
  (pySplit (pyStrip content) '\n').map (fun line => (pySplit line ',').map CellVal.str)

/-- The data create_excel_file builds from its content argument: json.loads
first, and only on a parse failure the comma-separated-lines fallback. -/
def excelDataOf (content : String) : Except String DataFrame :=
  match jsonLoads content with
  | some v => dataFrameOfJson v
  | none => .ok (mkDataFrameFromRows (csvFallbackRows content))

/-- One grid row of df.to_excel output as sheet cells, at row r starting in
column 1; NaN cells are left unwritten. -/
def gridRowCells (r : Int) : Int → List CellVal → List ((Int × Int) × CellVal)
  | _, [] => []
  | c, v :: vs =>
    (if v = .empty then [] else [((r, c), v)]) ++ gridRowCells r (c + 1) vs

/-- The whole to_excel grid as sheet cells, 1-based and row-major. -/
def gridCells : Int → List (List CellVal) → List ((Int × Int) × CellVal)
  | _, [] => []
  | r, row :: rest => gridRowCells r 1 row ++ gridCells (r + 1) rest

/-- df.to_excel(filepath, index=False): the header keeps its default True, so
the saved sheet (named Sheet1) holds the column labels in row 1 and the data
rows below them. -/
def toExcelWorkbook (df : DataFrame) : Workbook :=
  [⟨"Sheet1", gridCells 1 (df.columns :: df.rows)⟩]

/-- create_excel_file: parse the content (JSON first, CSV fallback), build
the DataFrame, save it with to_excel; a raised error becomes a failure
envelope. -/
def create_excel_file (fs : FS) (filepath content : String) : Envelope × FS :=
  match excelDataOf content with
  | .error e => (.fileResult false ("Error creating Excel file: " ++ e) none, fs)
  | .ok df =>
      (.fileResult true "Successfully created Excel file" (some filepath),
       fsSave fs filepath (.excel (toExcelWorkbook df)))

/-- pd.read_csv, simplified to the shape convert_csv_to_excel needs: the
first line is the header (column labels), the remaining lines are rows; an
empty file raises. Modelled from the spec: the CSV adapter itself is an
opaque external library, only its header convention and its failure on empty
input are relevant here. -/
def readCsvDataFrame (content : String) : Except String DataFrame :=
  if pyStrip content = "" then .error "No columns to parse from file"
  else
    match (pySplit (pyStrip content) '\n').map (fun l => (pySplit l ',').map CellVal.str) with
    | [] => .error "No columns to parse from file"
    | header :: rest => .ok ⟨header, rest⟩

/-- convert_csv_to_excel: missing source is an early failure; read the CSV,
save it with to_excel to the target path. -/
def convert_csv_to_excel (fs : FS) (source_path target_path : String) : Envelope × FS :=
  match fsLookup fs source_path with
  | none => (.fileResult false ("Source file not found: " ++ source_path) none, fs)
  | some f =>
    match loadText f >>= fun content => readCsvDataFrame content with
    | .error e =>
        (.fileResult false ("Error converting CSV to Excel: " ++ e) none, fs)
    | .ok df =>
        (.fileResult true "Successfully converted CSV to Excel" (some target_path),
         fsSave fs target_path (.excel (toExcelWorkbook df)))

/-! ## PDF operations -/

/-- The reportlab letter page height in points (11 inches at 72pt). -/
def letterHeight : Int := 792

/-- The open canvas while create_pdf_file runs: finished pages, the records
drawn on the current page, and the vertical cursor. -/
structure CanvasState where
  pages : List (List (Int × Int × String))
  current : List (Int × Int × String)
  y : Int
deriving DecidableEq, Repr

/-- The body of the line loop of create_pdf_file: when the cursor has crossed
the 40pt bottom margin, showPage starts a new page and the cursor resets to
the top margin; then the line is drawn at x = 40 and the cursor moves down by
the fixed 15pt line height, regardless of line width. -/
def drawLine (s : CanvasState) (line : String) : CanvasState :=
  if s.y < 40 then
    { pages := s.pages ++ [s.current],
      current := [(40, letterHeight - 40, line)],
      y := letterHeight - 40 - 15 }
  else
    { s with current := s.current ++ [(40, s.y, line)], y := s.y - 15 }

/-- canvas.save: flush the current page when anything was drawn on it. -/
def canvasFinish (s : CanvasState) : PdfDoc :=
  if s.current = [] then ⟨s.pages⟩ else ⟨s.pages ++ [s.current]⟩

/-- create_pdf_file: split the content into lines, run the cursor loop from
the top margin of the first page, save. -/
def create_pdf_file (fs : FS) (filepath content : String) : Envelope × FS :=
  let lines := pySplit content '\n'
  let final := lines.foldl drawLine ⟨[], [], letterHeight - 40⟩
  (.fileResult true "Successfully created PDF file" (some filepath),
   fsSave fs filepath (.pdf (canvasFinish final)))

/-- docx2pdf conversion. Modelled from the spec: the converter is an opaque
external library; only the envelope and file-existence behavior of
convert_word_to_pdf are specified, so the rendering maps each paragraph to
one drawn record on a single page. -/
def docx2pdfConvert (d : WordDoc) : PdfDoc :=
  ⟨[(d.map (fun p => (40, 0, p.text)))]⟩

/-- convert_word_to_pdf: missing source is an early failure; load the Word
document, convert, save to the target path. -/
def convert_word_to_pdf (fs : FS) (source_path target_path : String) : Envelope × FS :=
  match fsLookup fs source_path with
  | none => (.fileResult false ("Source file not found: " ++ source_path) none, fs)
  | some f =>
    match loadWordDoc f with
    | .error e =>
        (.fileResult false ("Error converting Word to PDF: " ++ e) none, fs)
    | .ok d =>
        (.fileResult true "Successfully converted Word to PDF" (some target_path),
         fsSave fs target_path (.pdf (docx2pdfConvert d)))

/-! ## Tool dispatch -/

/-- One external tool call with its parameter payload. -/
inductive ToolCall where
  | createWordDocument (filepath content : String)
  | editWordDocument (filepath : String) (operations : List WordOp)
  | convertTxtToWord (source_path target_path : String)
  | extractDocxText (filepath : String)
  | createExcelFile (filepath content : String)
  | editExcelFile (filepath : String) (operations : List ExcelOp)
  | convertCsvToExcel (source_path target_path : String)
  | createPdfFile (filepath content : String)
  | convertWordToPdf (source_path target_path : String)
deriving DecidableEq, Repr

/-- True exactly for the extract_docx_text tool, whose envelope carries a
content field instead of a filepath field. -/
def isExtractCall : ToolCall → Bool
  | .extractDocxText _ => true
  | _ => false

/-- The tool-dispatch facade: route a named call to its handler. Every
handler is total here because the failure boundary of each Python handler
catches every exception and converts it into a failure envelope: no
exception escapes a tool call. -/
def dispatch (fs : FS) : ToolCall → Envelope × FS
  | .createWordDocument p c => create_word_document fs p c
  | .editWordDocument p ops => edit_word_document fs p ops
  | .convertTxtToWord sp tp => convert_txt_to_word fs sp tp
  | .extractDocxText p => extract_docx_text fs p
  | .createExcelFile p c => create_excel_file fs p c
  | .editExcelFile p ops => edit_excel_file fs p ops
  | .convertCsvToExcel sp tp => convert_csv_to_excel fs sp tp
  | .createPdfFile p c => create_pdf_file fs p c
  | .convertWordToPdf sp tp => convert_word_to_pdf fs sp tp

/-! ## Predicates and concrete inputs used by the claims -/

/-- The descriptor targets a paragraph index outside the current document:
an edit_paragraph or delete_paragraph whose (defaulted) index fails the
bounds check of the handler. -/
def wordIndexOutOfRange (d : WordDoc) (op : WordOp) : Prop :=
  (op.type = some "edit_paragraph" ∨ op.type = some "delete_paragraph") ∧
  ¬ (0 ≤ op.index.getD 0 ∧ op.index.getD 0 < (d.length : Int))

/-- The sheet name a descriptor resolves to: its sheet field, defaulting to
the first sheet name of the workbook (none for a sheetless workbook). -/
def resolvedSheetName (wb : Workbook) (op : ExcelOp) : Option String :=
  (sheetNames wb).head?.map (fun firstName => op.sheet.getD firstName)

/-- The descriptor is a row or column deletion aimed strictly beyond the
occupied extent of its (already existing) target sheet. -/
def excelDeleteOutOfRange (wb : Workbook) (op : ExcelOp) : Prop :=
  ∃ n s, resolvedSheetName wb op = some n ∧ getSheet wb n = some s ∧
    ((op.type = some "delete_row" ∧ cellsMaxRow s.cells < op.row.getD 1) ∨
     (op.type = some "delete_column" ∧ cellsMaxCol s.cells < op.col.getD 1))

/-- The six descriptor types edit_excel_file recognizes. -/
def knownExcelTypes : List String :=
  ["update_cell", "update_range", "delete_row", "delete_column", "add_sheet", "delete_sheet"]

/-- The add_sheet descriptor for a given sheet name. -/
def addSheetOp (n : String) : ExcelOp := { type := some "add_sheet", name := some n }

/-- The JSON content of the create_excel_file scenario. -/
def c4Json : String := "[[\"a\",\"b\"],[\"1\",\"2\"]]"

/-- The cells the scenario actually writes: the pandas header row of integer
column labels 0 and 1 in row 1, then the two data rows. -/
def c4Cells : List ((Int × Int) × CellVal) :=
  [((1, 1), .int 0), ((1, 2), .int 1), ((2, 1), .str "a"), ((2, 2), .str "b"),
   ((3, 1), .str "1"), ((3, 2), .str "2")]

/-- The parsed form of the scenario content. -/
def c4Parsed : Json := .arr [.arr [.str "a", .str "b"], .arr [.str "1", .str "2"]]

/-- Join n copies of a line with newline separators, the way the scenario
builds its content. -/
def joinedLines (line : String) : Nat → String
  | 0 => ""
  | 1 => line
  | n + 2 => line ++ "\n" ++ joinedLines line (n + 1)

/-- The 100-line content of the create_pdf_file scenario. -/
def hundredLines : String := joinedLines "line" 100

/-- The number of pages of the PDF stored at a path, when one is there. -/
def pdfPageCountAt (fs : FS) (p : String) : Option Nat :=
  match fsLookup fs p with
  | some (.pdf d) => some d.pages.length
  | _ => none

/-! ## Helper lemmas -/

theorem exceptOk_bind {α β : Type} (a : α) (f : α → Except String β) :
    (Except.ok a >>= f) = f a := rfl

theorem fsLookup_fsSave (fs : FS) (p : String) (f : DocFile) :
    fsLookup (fsSave fs p f) p = some f := by
  induction fs with
  | nil => simp [fsSave, fsLookup]
  | cons e rest ih =>
    by_cases h : e.1 = p
    · simp [fsSave, fsLookup, h]
    · simp [fsSave, fsLookup, h, ih]

theorem modifySheet_length (wb : Workbook) (n : String) (f : Sheet → Sheet) :
    (modifySheet wb n f).length = wb.length := by
  induction wb with
  | nil => rfl
  | cons s rest ih =>
    by_cases h : s.name = n <;> simp [modifySheet, h, ih]

theorem deleteSheetByName_length (wb : Workbook) (n : String) :
    wb.length ≤ (deleteSheetByName wb n).length + 1 := by
  induction wb with
  | nil => simp [deleteSheetByName]
  | cons s rest ih =>
    by_cases h : s.name = n
    · simp [deleteSheetByName, h]
    · simp only [deleteSheetByName, if_neg h, List.length_cons]
      omega

theorem createSheet_ne_nil (wb : Workbook) (n : String) : createSheet wb n ≠ [] := by
  simp [createSheet]

theorem sheetNames_length (wb : Workbook) : (sheetNames wb).length = wb.length := by
  simp [sheetNames]

theorem modifySheet_eq_self {wb : Workbook} {n : String} {f : Sheet → Sheet}
    (h : ∀ s, getSheet wb n = some s → f s = s) : modifySheet wb n f = wb := by
  induction wb with
  | nil => rfl
  | cons s rest ih =>
    by_cases hn : s.name = n
    · have hs : f s = s := h s (by simp [getSheet, List.find?_cons_of_pos, hn])
      simp [modifySheet, hn, hs]
    · have ih2 : modifySheet rest n f = rest := by
        refine ih (fun s2 hs2 => h s2 ?_)
        rw [getSheet, List.find?_cons_of_neg]
        · exact hs2
        · simp [hn]
      simp [modifySheet, hn, ih2]

theorem deleteRow_out_of_range {s : Sheet} {r : Int} (h : cellsMaxRow s.cells < r) :
    s.deleteRow r = s := by
  rcases s with ⟨n, cells⟩
  simp only [Sheet.deleteRow, Sheet.mk.injEq, true_and]
  induction cells with
  | nil => rfl
  | cons e rest ih =>
    simp only [cellsMaxRow, max_lt_iff] at h
    have h1 : e.1.1 ≠ r := by omega
    have h2 : ¬ r < e.1.1 := by omega
    simp [h1, h2, ih h.2]

theorem deleteCol_out_of_range {s : Sheet} {c : Int} (h : cellsMaxCol s.cells < c) :
    s.deleteCol c = s := by
  rcases s with ⟨n, cells⟩
  simp only [Sheet.deleteCol, Sheet.mk.injEq, true_and]
  induction cells with
  | nil => rfl
  | cons e rest ih =>
    simp only [cellsMaxCol, max_lt_iff] at h
    have h1 : e.1.2 ≠ c := by omega
    have h2 : ¬ c < e.1.2 := by omega
    simp [h1, h2, ih h.2]

theorem dispatchExcelOp_length {wb1 : Workbook} (sheetName : String) (op : ExcelOp)
    (h : 1 ≤ wb1.length) : 1 ≤ (dispatchExcelOp wb1 sheetName op).length := by
  unfold dispatchExcelOp
  repeat' split
  all_goals
    first
    | (simpa [modifySheet_length] using h)
    | exact h
    | (simp only [createSheet, List.length_append]; omega)
    | (rename_i hcond
       have hdel := deleteSheetByName_length wb1 sheetName
       have h2 : 1 < wb1.length := by simpa [sheetNames_length] using hcond.2
       omega)

theorem dispatchExcelOp_ne_nil {wb1 : Workbook} (sheetName : String) (op : ExcelOp)
    (h : wb1 ≠ []) : dispatchExcelOp wb1 sheetName op ≠ [] := by
  have h1 : 1 ≤ wb1.length := List.length_pos.mpr h
  have h2 := dispatchExcelOp_length sheetName op h1
  exact List.length_pos.mp h2

theorem interpExcelOp_cons (s : Sheet) (rest : Workbook) (op : ExcelOp) :
    interpExcelOp (s :: rest) op =
      .ok (dispatchExcelOp
        (if op.sheet.getD s.name ∈ sheetNames (s :: rest) then s :: rest
         else createSheet (s :: rest) (op.sheet.getD s.name))
        (op.sheet.getD s.name) op) := by
  rfl

theorem interpExcelOp_total {wb : Workbook} (op : ExcelOp) (hne : wb ≠ []) :
    ∃ wb2, interpExcelOp wb op = .ok wb2 ∧ wb2 ≠ [] := by
  rcases wb with _ | ⟨s, rest⟩
  · exact absurd rfl hne
  · refine ⟨_, interpExcelOp_cons s rest op, ?_⟩
    apply dispatchExcelOp_ne_nil
    split
    · simp
    · exact createSheet_ne_nil _ _

theorem applyExcelOps_total (ops : List ExcelOp) {wb : Workbook} (hne : wb ≠ []) :
    ∃ wb2, applyExcelOps wb ops = .ok wb2 ∧ wb2 ≠ [] := by
  induction ops generalizing wb with
  | nil => exact ⟨wb, rfl, hne⟩
  | cons op rest ih =>
    obtain ⟨wb1, h1, hne1⟩ := interpExcelOp_total op hne
    obtain ⟨wb2, h2, hne2⟩ := ih hne1
    refine ⟨wb2, ?_, hne2⟩
    rw [applyExcelOps, List.foldlM_cons, h1]
    exact h2

theorem interpWordOp_out_of_range {d : WordDoc} {op : WordOp}
    (h : wordIndexOutOfRange d op) : interpWordOp d op = .ok d := by
  obtain ⟨hty, hidx⟩ := h
  rcases hty with hty | hty
  · simp +decide [interpWordOp, hty, hidx]
  · simp +decide [interpWordOp, hty, hidx]

theorem interpExcelOp_out_of_range {wb : Workbook} {op : ExcelOp}
    (h : excelDeleteOutOfRange wb op) : interpExcelOp wb op = .ok wb := by
  obtain ⟨n, s, hres, hget, hcase⟩ := h
  rcases wb with _ | ⟨s0, rest⟩
  · simp [resolvedSheetName, sheetNames] at hres
  · have hname : op.sheet.getD s0.name = n := by
      simpa [resolvedSheetName, sheetNames] using hres
    have hps : s.name = n := by
      have := List.find?_some hget
      simpa using this
    have hmem : n ∈ sheetNames (s0 :: rest) := by
      have hmem0 := List.mem_of_find?_eq_some hget
      have hn2 : s.name ∈ sheetNames (s0 :: rest) := by
        simpa [sheetNames] using List.mem_map_of_mem Sheet.name hmem0
      rwa [hps] at hn2
    rw [interpExcelOp_cons, hname, if_pos hmem]
    have hid : dispatchExcelOp (s0 :: rest) n op = s0 :: rest := by
      rcases hcase with ⟨hty, hbound⟩ | ⟨hty, hbound⟩
      · rw [dispatchExcelOp]
        simp +decide only [hty, reduceIte]
        refine modifySheet_eq_self (fun s2 hs2 => ?_)
        rw [hget] at hs2
        cases hs2
        exact deleteRow_out_of_range hbound
      · rw [dispatchExcelOp]
        simp +decide only [hty, reduceIte]
        refine modifySheet_eq_self (fun s2 hs2 => ?_)
        rw [hget] at hs2
        cases hs2
        exact deleteCol_out_of_range hbound
    rw [hid]

theorem applyWordOps_skip {d d1 : WordDoc} {ops1 : List WordOp} (ops2 : List WordOp)
    {op : WordOp} (h1 : applyWordOps d ops1 = .ok d1) (h2 : wordIndexOutOfRange d1 op) :
    applyWordOps d (ops1 ++ op :: ops2) = applyWordOps d (ops1 ++ ops2) := by
  rw [applyWordOps, applyWordOps, List.foldlM_append, List.foldlM_append]
  rw [applyWordOps] at h1
  rw [h1]
  show applyWordOps d1 (op :: ops2) = applyWordOps d1 ops2
  rw [applyWordOps, List.foldlM_cons, interpWordOp_out_of_range h2]
  rfl

theorem applyExcelOps_skip {wb wb1 : Workbook} {ops1 : List ExcelOp} (ops2 : List ExcelOp)
    {op : ExcelOp} (h1 : applyExcelOps wb ops1 = .ok wb1)
    (h2 : excelDeleteOutOfRange wb1 op) :
    applyExcelOps wb (ops1 ++ op :: ops2) = applyExcelOps wb (ops1 ++ ops2) := by
  rw [applyExcelOps, applyExcelOps, List.foldlM_append, List.foldlM_append]
  rw [applyExcelOps] at h1
  rw [h1]
  show applyExcelOps wb1 (op :: ops2) = applyExcelOps wb1 ops2
  rw [applyExcelOps, List.foldlM_cons, interpExcelOp_out_of_range h2]
  rfl

theorem edit_word_shape (fs : FS) (p : String) (ops : List WordOp) :
    ((edit_word_document fs p ops).1).success = true ∨
    ∃ m, (edit_word_document fs p ops).1 = .fileResult false m none := by
  unfold edit_word_document
  split
  · exact Or.inr ⟨_, rfl⟩
  · split
    · exact Or.inr ⟨_, rfl⟩
    · split
      · exact Or.inr ⟨_, rfl⟩
      · exact Or.inl rfl

theorem edit_excel_shape (fs : FS) (p : String) (ops : List ExcelOp) :
    ((edit_excel_file fs p ops).1).success = true ∨
    ∃ m, (edit_excel_file fs p ops).1 = .fileResult false m none := by
  unfold edit_excel_file
  split
  · exact Or.inr ⟨_, rfl⟩
  · split
    · exact Or.inr ⟨_, rfl⟩
    · split
      · exact Or.inr ⟨_, rfl⟩
      · exact Or.inl rfl

theorem convert_txt_shape (fs : FS) (sp tp : String) :
    ((convert_txt_to_word fs sp tp).1).success = true ∨
    ∃ m, (convert_txt_to_word fs sp tp).1 = .fileResult false m none := by
  unfold convert_txt_to_word
  split
  · exact Or.inr ⟨_, rfl⟩
  · split
    · exact Or.inr ⟨_, rfl⟩
    · exact Or.inl rfl

theorem convert_csv_shape (fs : FS) (sp tp : String) :
    ((convert_csv_to_excel fs sp tp).1).success = true ∨
    ∃ m, (convert_csv_to_excel fs sp tp).1 = .fileResult false m none := by
  unfold convert_csv_to_excel
  split
  · exact Or.inr ⟨_, rfl⟩
  · split
    · exact Or.inr ⟨_, rfl⟩
    · exact Or.inl rfl

theorem convert_word_pdf_shape (fs : FS) (sp tp : String) :
    ((convert_word_to_pdf fs sp tp).1).success = true ∨
    ∃ m, (convert_word_to_pdf fs sp tp).1 = .fileResult false m none := by
  unfold convert_word_to_pdf
  split
  · exact Or.inr ⟨_, rfl⟩
  · split
    · exact Or.inr ⟨_, rfl⟩
    · exact Or.inl rfl

theorem create_excel_shape (fs : FS) (p c : String) :
    ((create_excel_file fs p c).1).success = true ∨
    ∃ m, (create_excel_file fs p c).1 = .fileResult false m none := by
  unfold create_excel_file
  split
  · exact Or.inr ⟨_, rfl⟩
  · exact Or.inl rfl

theorem extract_shape (fs : FS) (p : String) :
    ((extract_docx_text fs p).1).success = true ∨
    ∃ m, (extract_docx_text fs p).1 = .contentResult false m "" := by
  unfold extract_docx_text
  split
  · exact Or.inr ⟨_, rfl⟩
  · split
    · exact Or.inr ⟨_, rfl⟩
    · exact Or.inl rfl

theorem addSheet_step (s0 : Sheet) (rest : Workbook) (n : String) :
    interpExcelOp (s0 :: rest) (addSheetOp n)
      = .ok (if n ∈ sheetNames (s0 :: rest) then s0 :: rest
             else createSheet (s0 :: rest) n) := by
  rw [interpExcelOp_cons]
  have hmem0 : (addSheetOp n).sheet.getD s0.name ∈ sheetNames (s0 :: rest) := by
    simp [addSheetOp, sheetNames]
  rw [if_pos hmem0, dispatchExcelOp]
  simp +decide [addSheetOp]

theorem addSheet_mem_noop {wb : Workbook} {n : String} (hne : wb ≠ [])
    (hmem : n ∈ sheetNames wb) : interpExcelOp wb (addSheetOp n) = .ok wb := by
  rcases wb with _ | ⟨s0, rest⟩
  · exact absurd rfl hne
  · rw [addSheet_step, if_pos hmem]

/-! ## Claim theorems -/

/-- Claim C1 (amended). An out-of-range index never aborts an edit batch and
never changes the state it targets, but in edit_excel_file each descriptor
first creates its resolved target sheet when that sheet is absent, so state
identity holds for word documents unconditionally and for workbooks whenever
the target sheet already exists. In order: an out-of-range edit_paragraph or
delete_paragraph leaves the document unchanged; a delete_row or delete_column
aimed beyond the extent of an existing target sheet leaves the workbook
unchanged; dropping such a word descriptor from a batch changes nothing about
the whole call; likewise for such an excel descriptor; an edit_word_document
call whose batch interprets without error reports success; an edit_excel_file
call on a loadable nonempty workbook always reports success. -/
theorem C1_out_of_range_skipped :
    (∀ (d : WordDoc) (op : WordOp), wordIndexOutOfRange d op →
      interpWordOp d op = .ok d) ∧
    (∀ (wb : Workbook) (op : ExcelOp), excelDeleteOutOfRange wb op →
      interpExcelOp wb op = .ok wb) ∧
    (∀ (fs : FS) (p : String) (d d1 : WordDoc) (ops1 ops2 : List WordOp) (op : WordOp),
      fsLookup fs p = some (.word d) → applyWordOps d ops1 = .ok d1 →
      wordIndexOutOfRange d1 op →
      edit_word_document fs p (ops1 ++ op :: ops2)
        = edit_word_document fs p (ops1 ++ ops2)) ∧
    (∀ (fs : FS) (p : String) (wb wb1 : Workbook) (ops1 ops2 : List ExcelOp) (op : ExcelOp),
      fsLookup fs p = some (.excel wb) → applyExcelOps wb ops1 = .ok wb1 →
      excelDeleteOutOfRange wb1 op →
      edit_excel_file fs p (ops1 ++ op :: ops2)
        = edit_excel_file fs p (ops1 ++ ops2)) ∧
    (∀ (fs : FS) (p : String) (d d2 : WordDoc) (ops : List WordOp),
      fsLookup fs p = some (.word d) → applyWordOps d ops = .ok d2 →
      (edit_word_document fs p ops).1
        = .fileResult true "Successfully edited Word document" (some p)) ∧
    (∀ (fs : FS) (p : String) (wb : Workbook) (ops : List ExcelOp),
      fsLookup fs p = some (.excel wb) → wb ≠ [] →
      (edit_excel_file fs p ops).1
        = .fileResult true "Successfully edited Excel file" (some p)) := by
  refine ⟨fun d op h => interpWordOp_out_of_range h,
          fun wb op h => interpExcelOp_out_of_range h, ?_, ?_, ?_, ?_⟩
  · intro fs p d d1 ops1 ops2 op hl ha hoor
    have heq := applyWordOps_skip ops2 ha hoor
    simp only [edit_word_document, hl, loadWordDoc, heq]
  · intro fs p wb wb1 ops1 ops2 op hl ha hoor
    have heq := applyExcelOps_skip ops2 ha hoor
    simp only [edit_excel_file, hl, loadWorkbook, heq]
  · intro fs p d d2 ops hl ha
    simp only [edit_word_document, hl, loadWordDoc, ha]
  · intro fs p wb ops hl hne
    obtain ⟨wb2, h2, _⟩ := applyExcelOps_total ops hne
    simp only [edit_excel_file, hl, loadWorkbook, h2]

/-- Claim C2 (amended). No exception escapes a tool call (every handler is a
total function into envelopes), and a failed call returns
success=false, message, filepath=null — for every tool except
extract_docx_text, whose failure envelope instead carries success=false, a
message, and an empty content field, with no filepath field at all. -/
theorem C2_failure_envelope (fs : FS) (call : ToolCall)
    (hfail : ((dispatch fs call).1).success = false) :
    (isExtractCall call = true →
      ∃ m, (dispatch fs call).1 = .contentResult false m "") ∧
    (isExtractCall call = false →
      ∃ m, (dispatch fs call).1 = .fileResult false m none) := by
  cases call with
  | createWordDocument p c =>
      refine ⟨fun h => by simp [isExtractCall] at h, fun _ => ?_⟩
      simp [dispatch, create_word_document, Envelope.success] at hfail
  | editWordDocument p ops =>
      simp only [dispatch] at hfail ⊢
      refine ⟨fun h => by simp [isExtractCall] at h, fun _ => ?_⟩
      rcases edit_word_shape fs p ops with h | h
      · rw [h] at hfail; simp at hfail
      · exact h
  | convertTxtToWord sp tp =>
      simp only [dispatch] at hfail ⊢
      refine ⟨fun h => by simp [isExtractCall] at h, fun _ => ?_⟩
      rcases convert_txt_shape fs sp tp with h | h
      · rw [h] at hfail; simp at hfail
      · exact h
  | extractDocxText p =>
      simp only [dispatch] at hfail ⊢
      refine ⟨fun _ => ?_, fun h => by simp [isExtractCall] at h⟩
      rcases extract_shape fs p with h | h
      · rw [h] at hfail; simp at hfail
      · exact h
  | createExcelFile p c =>
      simp only [dispatch] at hfail ⊢
      refine ⟨fun h => by simp [isExtractCall] at h, fun _ => ?_⟩
      rcases create_excel_shape fs p c with h | h
      · rw [h] at hfail; simp at hfail
      · exact h
  | editExcelFile p ops =>
      simp only [dispatch] at hfail ⊢
      refine ⟨fun h => by simp [isExtractCall] at h, fun _ => ?_⟩
      rcases edit_excel_shape fs p ops with h | h
      · rw [h] at hfail; simp at hfail
      · exact h
  | convertCsvToExcel sp tp =>
      simp only [dispatch] at hfail ⊢
      refine ⟨fun h => by simp [isExtractCall] at h, fun _ => ?_⟩
      rcases convert_csv_shape fs sp tp with h | h
      · rw [h] at hfail; simp at hfail
      · exact h
  | createPdfFile p c =>
      refine ⟨fun h => by simp [isExtractCall] at h, fun _ => ?_⟩
      simp [dispatch, create_pdf_file, Envelope.success] at hfail
  | convertWordToPdf sp tp =>
      simp only [dispatch] at hfail ⊢
      refine ⟨fun h => by simp [isExtractCall] at h, fun _ => ?_⟩
      rcases convert_word_pdf_shape fs sp tp with h | h
      · rw [h] at hfail; simp at hfail
      · exact h

/-- Claim C3. A workbook that enters descriptor interpretation with at least
one sheet still has at least one sheet after any descriptor sequence, and a
delete_sheet descriptor applied to a single-sheet workbook is a no-op, in
particular when it targets that only remaining sheet. -/
theorem C3_workbook_keeps_a_sheet :
    (∀ (wb wb2 : Workbook) (ops : List ExcelOp), wb ≠ [] →
      applyExcelOps wb ops = .ok wb2 → wb2 ≠ []) ∧
    (∀ (s : Sheet) (op : ExcelOp), op.type = some "delete_sheet" →
      interpExcelOp [s] op = .ok [s]) := by
  constructor
  · intro wb wb2 ops
    induction ops generalizing wb with
    | nil =>
      intro hne happ
      rw [applyExcelOps, List.foldlM_nil] at happ
      cases happ
      exact hne
    | cons op rest ih =>
      intro hne happ
      rw [applyExcelOps, List.foldlM_cons] at happ
      obtain ⟨wb1, h1, hne1⟩ := interpExcelOp_total op hne
      rw [h1] at happ
      exact ih wb1 hne1 happ
  · intro s op hty
    rw [interpExcelOp_cons]
    by_cases hmem : op.sheet.getD s.name ∈ sheetNames [s]
    · rw [if_pos hmem]
      rw [dispatchExcelOp]
      simp +decide [hty, sheetNames]
    · rw [if_neg hmem]
      have hne : op.sheet.getD s.name ≠ s.name := by
        simpa [sheetNames] using hmem
      rw [dispatchExcelOp]
      simp +decide [hty, createSheet, sheetNames, deleteSheetByName, hne, Ne.symm hne]

/-- Claim C8. Edit calls are atomic with respect to fatal errors: whenever
edit_word_document or edit_excel_file returns a failure envelope, the save
step was never reached and the file system is exactly the one the call
started from. -/
theorem C8_no_save_on_failure (fs : FS) (p : String) (wops : List WordOp)
    (xops : List ExcelOp) :
    (((edit_word_document fs p wops).1).success = false →
      (edit_word_document fs p wops).2 = fs) ∧
    (((edit_excel_file fs p xops).1).success = false →
      (edit_excel_file fs p xops).2 = fs) := by
  constructor
  · intro hfail
    unfold edit_word_document at hfail ⊢
    cases hl : fsLookup fs p with
    | none => simp [hl]
    | some f =>
      cases hld : loadWordDoc f with
      | error e => simp [hl, hld]
      | ok d =>
        cases ha : applyWordOps d wops with
        | error e => simp [hl, hld, ha]
        | ok d2 =>
          rw [hl] at hfail
          simp only [hld, ha] at hfail
          simp [Envelope.success] at hfail
  · intro hfail
    unfold edit_excel_file at hfail ⊢
    cases hl : fsLookup fs p with
    | none => simp [hl]
    | some f =>
      cases hld : loadWorkbook f with
      | error e => simp [hl, hld]
      | ok wb =>
        cases ha : applyExcelOps wb xops with
        | error e => simp [hl, hld, ha]
        | ok wb2 =>
          rw [hl] at hfail
          simp only [hld, ha] at hfail
          simp [Envelope.success] at hfail

/-- Claim C4 (amended). create_excel_file parses its content as JSON first
and only on a parse failure splits it into comma-separated lines; but
df.to_excel(filepath, index=False) keeps its default header=True, so the
scenario input saves a 3-by-2 grid whose first row holds the integer column
labels 0 and 1 and whose data rows sit below: cell (2,1) reads back "a",
while cell (1,1) reads back the integer 0. -/
theorem C4_json_first_then_csv :
    (∀ (content : String) (v : Json), jsonLoads content = some v →
      excelDataOf content = dataFrameOfJson v) ∧
    (∀ content : String, jsonLoads content = none →
      excelDataOf content = .ok (mkDataFrameFromRows (csvFallbackRows content))) ∧
    (fsLookup (create_excel_file [] "t.xlsx" c4Json).2 "t.xlsx"
        = some (.excel [⟨"Sheet1", c4Cells⟩]) ∧
      Sheet.getCell ⟨"Sheet1", c4Cells⟩ 2 1 = some (.str "a") ∧
      Sheet.getCell ⟨"Sheet1", c4Cells⟩ 1 1 = some (.int 0)) := by
  refine ⟨?_, ?_, by decide, by decide, by decide⟩
  · intro content v h
    rw [excelDataOf, h]
  · intro content h
    rw [excelDataOf, h]

/-- Claim C6 (amended). convert_txt_to_word produces one paragraph per line
with non-blank content, in line order; create_word_document instead adds the
entire content string as a single paragraph. -/
theorem C6_paragraphs_per_line (fs : FS) (p sp tp content : String)
    (hsrc : fsLookup fs sp = some (.text content)) :
    fsLookup (create_word_document fs p content).2 p
      = some (.word [⟨content, .normal⟩]) ∧
    fsLookup (convert_txt_to_word fs sp tp).2 tp
      = some (.word (txtToParas content)) := by
  constructor
  · exact fsLookup_fsSave fs p _
  · simp only [convert_txt_to_word, hsrc, loadText]
    exact fsLookup_fsSave fs tp _

set_option maxRecDepth 8192 in
/-- Claim C7. create_pdf_file paginates by a vertical cursor: while the
cursor is at or above the 40pt bottom margin a line is drawn at the cursor
and the cursor drops by exactly 15pt; once the cursor is below 40pt the page
is flushed and the line is drawn at the top margin (page height minus 40pt)
of a fresh page; the 100-line scenario therefore saves a PDF with more than
one page (three). -/
theorem C7_pdf_pagination :
    (∀ (s : CanvasState) (line : String), 40 ≤ s.y →
      drawLine s line = ⟨s.pages, s.current ++ [(40, s.y, line)], s.y - 15⟩) ∧
    (∀ (s : CanvasState) (line : String), s.y < 40 →
      drawLine s line
        = ⟨s.pages ++ [s.current], [(40, letterHeight - 40, line)],
           letterHeight - 40 - 15⟩) ∧
    (pdfPageCountAt (create_pdf_file [] "t.pdf" hundredLines).2 "t.pdf" = some 3 ∧
      1 < 3) := by
  refine ⟨?_, ?_, by decide, by decide⟩
  · intro s line h
    have hnot : ¬ s.y < 40 := by omega
    rcases s with ⟨pgs, cur, y⟩
    simp [drawLine, hnot]
  · intro s line h
    rcases s with ⟨pgs, cur, y⟩
    simp [drawLine, h]

/-- Claim C9. In edit_excel_file every descriptor resolves its sheet field
and creates the named sheet when absent before the type is dispatched, so a
descriptor with an unknown type whose sheet field names a missing sheet still
appends that empty sheet, and the call saves the mutated workbook with a
success envelope. -/
theorem C9_unknown_type_still_creates_sheet (fs : FS) (p : String) (wb : Workbook)
    (ty : Option String) (s : String)
    (hwb : fsLookup fs p = some (.excel wb)) (hne : wb ≠ [])
    (hs : s ∉ sheetNames wb)
    (hty : ∀ t, t ∈ knownExcelTypes → ty ≠ some t) :
    interpExcelOp wb { type := ty, sheet := some s } = .ok (createSheet wb s) ∧
    edit_excel_file fs p [{ type := ty, sheet := some s }]
      = (.fileResult true "Successfully edited Excel file" (some p),
         fsSave fs p (.excel (createSheet wb s))) := by
  have h1 : ty ≠ some "update_cell" := hty _ (by simp [knownExcelTypes])
  have h2 : ty ≠ some "update_range" := hty _ (by simp [knownExcelTypes])
  have h3 : ty ≠ some "delete_row" := hty _ (by simp [knownExcelTypes])
  have h4 : ty ≠ some "delete_column" := hty _ (by simp [knownExcelTypes])
  have h5 : ty ≠ some "add_sheet" := hty _ (by simp [knownExcelTypes])
  have h6 : ty ≠ some "delete_sheet" := hty _ (by simp [knownExcelTypes])
  have hinterp : interpExcelOp wb { type := ty, sheet := some s }
      = .ok (createSheet wb s) := by
    rcases wb with _ | ⟨s0, rest⟩
    · exact absurd rfl hne
    · rw [interpExcelOp_cons]
      have hgetD : (ExcelOp.sheet { type := ty, sheet := some s }).getD s0.name = s := rfl
      rw [hgetD, if_neg hs, dispatchExcelOp]
      simp [h1, h2, h3, h4, h5, h6]
  refine ⟨hinterp, ?_⟩
  simp only [edit_excel_file, hwb, loadWorkbook, applyExcelOps, List.foldlM_cons,
    List.foldlM_nil, hinterp, exceptOk_bind]
  rfl

/-- Claim C5. add_sheet is idempotent: when a sheet of the requested name
already exists the descriptor leaves the workbook exactly as it is and is
not an error, and running the same add_sheet descriptor twice in one batch
gives the same result as running it once. -/
theorem C5_add_sheet_idempotent :
    (∀ (wb : Workbook) (n : String), wb ≠ [] → n ∈ sheetNames wb →
      interpExcelOp wb (addSheetOp n) = .ok wb) ∧
    (∀ (wb : Workbook) (n : String), wb ≠ [] →
      applyExcelOps wb [addSheetOp n, addSheetOp n]
        = applyExcelOps wb [addSheetOp n]) := by
  constructor
  · intro wb n hne hmem
    exact addSheet_mem_noop hne hmem
  · intro wb n hne
    rcases wb with _ | ⟨s0, rest⟩
    · exact absurd rfl hne
    · have h1 := addSheet_step s0 rest n
      have hneA : (if n ∈ sheetNames (s0 :: rest) then s0 :: rest
          else createSheet (s0 :: rest) n) ≠ [] := by
        split
        · simp
        · exact createSheet_ne_nil _ _
      have hmemA : n ∈ sheetNames (if n ∈ sheetNames (s0 :: rest) then s0 :: rest
          else createSheet (s0 :: rest) n) := by
        split
        · assumption
        · simp [createSheet, sheetNames]
      have h2 := addSheet_mem_noop hneA hmemA
      simp only [applyExcelOps, List.foldlM_cons, List.foldlM_nil, h1,
        exceptOk_bind, h2]

/-- Claim C10. In edit_word_document a descriptor missing a type-specific
field is interpreted with the op.get default rather than rejected: a missing
text field defaults to the empty string, a missing level to 1, a missing
index to 0 — and so a delete_paragraph descriptor with no index field
removes paragraph 0 of every nonempty document. -/
theorem C10_missing_fields_default :
    (∀ d : WordDoc, interpWordOp d { type := some "add_paragraph" }
        = interpWordOp d { type := some "add_paragraph", text := some "" }) ∧
    (∀ d : WordDoc, interpWordOp d { type := some "add_heading" }
        = interpWordOp d { type := some "add_heading", text := some "", level := some 1 }) ∧
    (∀ d : WordDoc, interpWordOp d { type := some "edit_paragraph" }
        = interpWordOp d { type := some "edit_paragraph", text := some "", index := some 0 }) ∧
    (∀ d : WordDoc, interpWordOp d { type := some "delete_paragraph" }
        = interpWordOp d { type := some "delete_paragraph", index := some 0 }) ∧
    (∀ d : WordDoc, d ≠ [] →
      interpWordOp d { type := some "delete_paragraph" } = .ok d.tail) := by
  refine ⟨fun d => rfl, fun d => rfl, fun d => rfl, fun d => rfl, ?_⟩
  intro d hne
  rcases d with _ | ⟨pa, rest⟩
  · exact absurd rfl hne
  · simp +decide [interpWordOp]

/-! ## Counterexamples -/

/-- Claim C1 counterexample: a delete_row descriptor whose row is out of
range and whose sheet field names an absent sheet does NOT leave the workbook
identical — the resolution step creates the sheet before the type dispatch,
so the saved workbook gains an empty sheet (while the call still succeeds). -/
theorem C1_counterexample :
    edit_excel_file [("t.xlsx", .excel [⟨"Sheet1", []⟩])] "t.xlsx"
        [{ type := some "delete_row", sheet := some "Extra", row := some 99 }]
      = (.fileResult true "Successfully edited Excel file" (some "t.xlsx"),
         [("t.xlsx", .excel [⟨"Sheet1", []⟩, ⟨"Extra", []⟩])]) ∧
    DocFile.excel [⟨"Sheet1", []⟩, ⟨"Extra", []⟩] ≠ .excel [⟨"Sheet1", []⟩] := by
  decide

/-- Claim C2 counterexample: the failure envelope of extract_docx_text on a
missing file carries a content field and no filepath field, so it is not of
the shape success=false, message, filepath=null. -/
theorem C2_counterexample :
    (dispatch [] (.extractDocxText "missing.docx")).1
      = .contentResult false "File not found: missing.docx" "" ∧
    Envelope.hasFilepathField (dispatch [] (.extractDocxText "missing.docx")).1
      = false := by
  decide

/-- Claim C4 counterexample: after the scenario call, reading cell (1,1)
back does not give "a" — it gives the integer column label 0 that
df.to_excel wrote as the header row. -/
theorem C4_counterexample :
    fsLookup (create_excel_file [] "t.xlsx" c4Json).2 "t.xlsx"
      = some (.excel [⟨"Sheet1", c4Cells⟩]) ∧
    Sheet.getCell ⟨"Sheet1", c4Cells⟩ 1 1 ≠ some (.str "a") := by
  decide

/-- Claim C6 counterexample: create_word_document "a\nb" saves a single
paragraph holding the entire content, not one paragraph per non-empty line
(which would be the two paragraphs txtToParas builds). -/
theorem C6_counterexample :
    fsLookup (create_word_document [] "d.docx" "a\nb").2 "d.docx"
      = some (.word [⟨"a\nb", .normal⟩]) ∧
    txtToParas "a\nb" = [⟨"a", .normal⟩, ⟨"b", .normal⟩] ∧
    DocFile.word [⟨"a\nb", .normal⟩] ≠ .word [⟨"a", .normal⟩, ⟨"b", .normal⟩] := by
  decide

/-! ## Witnesses -/

/-- Witness for C1: concrete out-of-range descriptors are skipped, the rest
of the batch runs, and the calls report success. -/
theorem C1_witness :
    interpWordOp [⟨"x", .normal⟩] { type := some "delete_paragraph", index := some 999 }
      = .ok [⟨"x", .normal⟩] ∧
    interpExcelOp [⟨"S", [((1, 1), .str "v")]⟩]
        { type := some "delete_row", row := some 99 }
      = .ok [⟨"S", [((1, 1), .str "v")]⟩] ∧
    edit_word_document [("d.docx", .word [⟨"x", .normal⟩])] "d.docx"
        [{ type := some "delete_paragraph", index := some 999 }]
      = edit_word_document [("d.docx", .word [⟨"x", .normal⟩])] "d.docx" [] ∧
    edit_excel_file [("t.xlsx", .excel [⟨"S", [((1, 1), .str "v")]⟩])] "t.xlsx"
        [{ type := some "delete_row", row := some 99 }]
      = edit_excel_file [("t.xlsx", .excel [⟨"S", [((1, 1), .str "v")]⟩])] "t.xlsx" [] ∧
    (edit_word_document [("d.docx", .word [⟨"x", .normal⟩])] "d.docx"
        [{ type := some "delete_paragraph", index := some 999 }]).1
      = .fileResult true "Successfully edited Word document" (some "d.docx") ∧
    (edit_excel_file [("t.xlsx", .excel [⟨"S", [((1, 1), .str "v")]⟩])] "t.xlsx"
        [{ type := some "delete_row", row := some 99 }]).1
      = .fileResult true "Successfully edited Excel file" (some "t.xlsx") := by
  refine ⟨C1_out_of_range_skipped.1 _ _ ⟨Or.inr rfl, by decide⟩,
    C1_out_of_range_skipped.2.1 _ _
      ⟨"S", ⟨"S", [((1, 1), .str "v")]⟩, rfl, rfl, Or.inl ⟨rfl, by decide⟩⟩,
    C1_out_of_range_skipped.2.2.1 _ _ _ _ [] [] _ rfl rfl ⟨Or.inr rfl, by decide⟩,
    C1_out_of_range_skipped.2.2.2.1 _ _ _ _ [] [] _ rfl rfl
      ⟨"S", ⟨"S", [((1, 1), .str "v")]⟩, rfl, rfl, Or.inl ⟨rfl, by decide⟩⟩,
    C1_out_of_range_skipped.2.2.2.2.1 _ _ _ _ _ rfl rfl,
    C1_out_of_range_skipped.2.2.2.2.2 _ _ _ _ rfl (by decide)⟩

/-- Witness for C2: a concrete failing edit call and a concrete failing
extract call take the two amended failure shapes. -/
theorem C2_witness :
    ((dispatch [] (.editWordDocument "x.docx" [])).1).success = false ∧
    (∃ m, (dispatch [] (.editWordDocument "x.docx" [])).1
      = .fileResult false m none) ∧
    ((dispatch [] (.extractDocxText "y.docx")).1).success = false ∧
    (∃ m, (dispatch [] (.extractDocxText "y.docx")).1
      = .contentResult false m "") := by
  refine ⟨by decide, (C2_failure_envelope [] _ (by decide)).2 (by decide),
          by decide, (C2_failure_envelope [] _ (by decide)).1 (by decide)⟩

/-- Witness for C3: a two-sheet workbook stays nonempty through a
delete_sheet, and a delete_sheet aimed at the only sheet is a no-op. -/
theorem C3_witness :
    ([⟨"Other", []⟩] : Workbook) ≠ [] ∧
    interpExcelOp [⟨"Only", []⟩] { type := some "delete_sheet", sheet := some "Only" }
      = .ok [⟨"Only", []⟩] := by
  refine ⟨?_, C3_workbook_keeps_a_sheet.2 _ _ rfl⟩
  exact C3_workbook_keeps_a_sheet.1 [⟨"Only", []⟩, ⟨"Other", []⟩] _
    [{ type := some "delete_sheet", sheet := some "Only" }] (by decide) rfl

/-- Witness for C4: the scenario content parses as JSON and takes the JSON
path, and a non-JSON content takes the CSV path. -/
theorem C4_witness :
    jsonLoads c4Json = some c4Parsed ∧
    excelDataOf c4Json = dataFrameOfJson c4Parsed ∧
    jsonLoads "a,b" = none ∧
    excelDataOf "a,b" = .ok (mkDataFrameFromRows (csvFallbackRows "a,b")) := by
  exact ⟨rfl, C4_json_first_then_csv.1 _ _ rfl, rfl, C4_json_first_then_csv.2.1 _ rfl⟩

/-- Witness for C5: adding an existing sheet name is a no-op, and a repeated
add_sheet behaves like a single one. -/
theorem C5_witness :
    ([⟨"Sheet1", []⟩] : Workbook) ≠ [] ∧
    "Sheet1" ∈ sheetNames [(⟨"Sheet1", []⟩ : Sheet)] ∧
    interpExcelOp [⟨"Sheet1", []⟩] (addSheetOp "Sheet1") = .ok [⟨"Sheet1", []⟩] ∧
    applyExcelOps [⟨"Sheet1", []⟩] [addSheetOp "A", addSheetOp "A"]
      = applyExcelOps [⟨"Sheet1", []⟩] [addSheetOp "A"] := by
  refine ⟨by decide, by decide,
    C5_add_sheet_idempotent.1 _ _ (by decide) (by decide),
    C5_add_sheet_idempotent.2 _ _ (by decide)⟩

/-- Witness for C6: a concrete three-line text file (whose middle line is
blank) converts to the two txtToParas paragraphs, while creation stores the
whole content as one paragraph. -/
theorem C6_witness :
    fsLookup [("s.txt", .text "a\n \nb")] "s.txt" = some (.text "a\n \nb") ∧
    fsLookup (create_word_document [("s.txt", .text "a\n \nb")] "d.docx" "a\n \nb").2
      "d.docx"
      = some (.word [⟨"a\n \nb", .normal⟩]) ∧
    fsLookup (convert_txt_to_word [("s.txt", .text "a\n \nb")] "s.txt" "t.docx").2
      "t.docx"
      = some (.word (txtToParas "a\n \nb")) := by
  refine ⟨rfl, ?_, ?_⟩
  · exact (C6_paragraphs_per_line [("s.txt", .text "a\n \nb")] "d.docx" "s.txt"
      "t.docx" "a\n \nb" rfl).1
  · exact (C6_paragraphs_per_line [("s.txt", .text "a\n \nb")] "d.docx" "s.txt"
      "t.docx" "a\n \nb" rfl).2

/-- Witness for C7: one concrete in-page step and one concrete page-break
step of the cursor loop. -/
theorem C7_witness :
    (40 ≤ (100 : Int)) ∧
    drawLine ⟨[], [], 100⟩ "x" = ⟨[], [(40, 100, "x")], 85⟩ ∧
    ((30 : Int) < 40) ∧
    drawLine ⟨[[(40, 752, "a")]], [(40, 45, "b")], 30⟩ "c"
      = ⟨[[(40, 752, "a")], [(40, 45, "b")]], [(40, letterHeight - 40, "c")],
         letterHeight - 40 - 15⟩ := by
  exact ⟨by decide, C7_pdf_pagination.1 _ _ (by decide), by decide,
         C7_pdf_pagination.2.1 _ _ (by decide)⟩

/-- Witness for C8: concrete failing edit calls (missing file) leave the
file system untouched. -/
theorem C8_witness :
    ((edit_word_document [] "x.docx" []).1).success = false ∧
    (edit_word_document [] "x.docx" []).2 = [] ∧
    ((edit_excel_file [] "y.xlsx" []).1).success = false ∧
    (edit_excel_file [] "y.xlsx" []).2 = [] := by
  refine ⟨by decide, (C8_no_save_on_failure [] "x.docx" [] []).1 (by decide),
          by decide, (C8_no_save_on_failure [] "y.xlsx" [] []).2 (by decide)⟩

/-- Witness for C9: a concrete unknown-type descriptor naming an absent
sheet adds that sheet and the call saves the mutated workbook. -/
theorem C9_witness :
    interpExcelOp [⟨"Sheet1", []⟩] { type := some "mystery_op", sheet := some "New" }
      = .ok (createSheet [⟨"Sheet1", []⟩] "New") ∧
    edit_excel_file [("t.xlsx", .excel [⟨"Sheet1", []⟩])] "t.xlsx"
        [{ type := some "mystery_op", sheet := some "New" }]
      = (.fileResult true "Successfully edited Excel file" (some "t.xlsx"),
         fsSave [("t.xlsx", .excel [⟨"Sheet1", []⟩])] "t.xlsx"
           (.excel (createSheet [⟨"Sheet1", []⟩] "New"))) := by
  exact C9_unknown_type_still_creates_sheet _ _ _ _ _ rfl (by decide) (by decide)
    (by decide)

/-- Witness for C10: a delete_paragraph descriptor with no index field
removes paragraph 0 of a concrete nonempty document. -/
theorem C10_witness :
    ([⟨"x", .normal⟩] : WordDoc) ≠ [] ∧
    interpWordOp [⟨"x", .normal⟩] { type := some "delete_paragraph" }
      = .ok (List.tail [⟨"x", .normal⟩]) := by
  exact ⟨by decide, C10_missing_fields_default.2.2.2.2 _ (by decide)⟩

end DocMCP
